import Mathlib

/-!
Verification of the Day01 WebSocket chat relay (app.py, app2.py, app3.py).

The embedding models, per connection, the receive/validate/handle loop of the
FastAPI WebSocket endpoints.  External effects (the client, the model backend,
send failures, timeouts) are supplied as explicit scenario data; the handlers
are translated as pure functions from scenarios to the list of successfully
emitted events plus the resulting loop control (continue / break-with-close-code
/ exception to the supervisor).
-/

/-- JSON values, as received by `websocket.receive_json()`. -/
inductive JsonVal where
  | null
  | boolVal (b : Bool)
  | num (n : Int)
  | str (s : String)
  | arr (xs : List JsonVal)
  | obj (fields : List (String × JsonVal))

/-- Validated request, mirroring `class ChatRequest(BaseModel)` of app2/app3:
`message: str = Field(..., min_length=1, max_length=8000)`. -/
structure ChatRequest where
  message : String
deriving DecidableEq

/-- One entry of Pydantic's `ValidationError.errors()` list (the fields that
`is_message_too_big_error` inspects). -/
structure PydErr where
  type_ : String
  msg : String
  loc : List String
deriving DecidableEq

/-- First-match association lookup, as Python's `dict` lookup on JSON objects
(JSON objects have unique keys). -/
def lookupField (k : String) : List (String × JsonVal) → Option JsonVal
  | [] => none
  | (k', v) :: rest => if k' = k then some v else lookupField k rest

/-- Pydantic v2 error entry for a missing "message" field. -/
def missingErr : PydErr := ⟨"missing", "Field required", ["message"]⟩

/-- Pydantic v2 error entry for an empty "message" string (`min_length=1`). -/
def tooShortErr : PydErr := ⟨"string_too_short", "String should have at least 1 character", ["message"]⟩

/-- Pydantic v2 error entry for an over-long "message" string (`max_length=8000`). -/
def tooLongErr : PydErr := ⟨"string_too_long", "String should have at most 8000 characters", ["message"]⟩

/-- Pydantic v2 error entry for a non-string "message" value. -/
def strTypeErr : PydErr := ⟨"string_type", "Input should be a valid string", ["message"]⟩

/-- Pydantic v2 error entry for a non-dict payload. -/
def modelTypeErr : PydErr := ⟨"model_type", "Input should be a valid dictionary or instance of ChatRequest", []⟩

/-- Validation of the looked-up "message" value against
`message: str = Field(..., min_length=1, max_length=8000)` (lengths counted in
characters, as Python's `len` on `str`). -/
def validateMessage : Option JsonVal → Except (List PydErr) ChatRequest
  | none => .error [missingErr]
  | some (.str s) =>
    if s.length < 1 then .error [tooShortErr]
    else if 8000 < s.length then .error [tooLongErr]
    else .ok ⟨s⟩
  | some _ => .error [strTypeErr]

/-- Pydantic v2 validation of `ChatRequest.model_validate(data)`: the payload
must be a dict whose "message" key holds a string of length 1..8000. -/
def chatRequestValidate : JsonVal → Except (List PydErr) ChatRequest
  | .obj fields => validateMessage (lookupField "message" fields)
  | _ => .error [modelTypeErr]

/-- Occurrence of `pat` as a contiguous sublist of a character list. -/
def infixOf (pat : List Char) : List Char → Bool
  | [] => pat.isEmpty
  | c :: cs => pat.isPrefixOf (c :: cs) || infixOf pat cs

/-- Python's substring test `pat in hay`. -/
def containsSub (hay pat : String) : Bool :=
  infixOf pat.toList hay.toList

/-- Python's `str.lower()` (on the ASCII range relevant here). -/
def pyLower (s : String) : String :=
  String.mk (s.toList.map Char.toLower)

/-- app3.py `is_message_too_big_error(errors)`: detect Pydantic `max_length`
errors on the `message` field, so the caller can close with 1009. -/
def is_message_too_big_error (errors : List PydErr) : Bool :=
  errors.any fun err =>
    (containsSub (pyLower err.type_) "too_long" || containsSub (pyLower err.msg) "too long"
      || containsSub (pyLower err.msg) "max_length")
    && err.loc.contains "message"

/-- Shapes an LLM result / stream chunk can take, as probed by `to_text`:
Python `None`, a plain string, an object with a `.content` attribute (which
may itself be `None` or a string), or any other object (whose `str()` is the
given string). -/
inductive LLMValue where
  | noneVal
  | plain (s : String)
  | withContent (content : Option String)
  | other (stringRepr : String)
deriving DecidableEq

/-- app2/app3 `to_text(result)`: convert LLM result / chunk to plain text
safely.  `result.content or ""` yields `""` for a `None` content and the
content itself otherwise (an empty-string content also yields `""`). -/
def to_text : LLMValue → String
  | .noneVal => ""
  | .withContent none => ""
  | .withContent (some s) => s
  | .plain s => s
  | .other r => r

/-- Outcome of one `await websocket.send_json(...)`: success, raised
`WebSocketDisconnect`, or raised some other exception. -/
inductive SendRes where
  | ok
  | disc
  | err
deriving DecidableEq

/-- One chunk produced by `llm.astream(...)`: the raw value, and the outcome of
the chunk's `send_json` if one is attempted. -/
structure ChunkStep where
  raw : LLMValue
  sendRes : SendRes
deriving DecidableEq

/-- How the token stream itself finishes, after the scripted chunks: normal
exhaustion, a raised exception from the model, or the 120s `asyncio.wait_for`
timeout firing. -/
inductive StreamTerm where
  | done
  | raised
  | timeout
deriving DecidableEq

/-- Environment for one streaming request: the result of the `start` send, the
produced chunks with their send outcomes, how the stream finishes, and the
outcomes of the `end`, `STREAM_TIMEOUT` and `STREAM_ERROR` sends should they be
attempted. -/
structure StreamScenario where
  startSend : SendRes
  steps : List ChunkStep
  term : StreamTerm
  endSend : SendRes
  timeoutSend : SendRes
  errSend : SendRes
deriving DecidableEq

/-- Result of `asyncio.wait_for(llm.ainvoke(...), timeout=60)`: a value, a
`TimeoutError`, or another exception. -/
inductive InvokeRes where
  | result (v : LLMValue)
  | timeout
  | failure
deriving DecidableEq

/-- Environment for one non-streaming request. -/
structure NonStreamScenario where
  invoke : InvokeRes
  respSend : SendRes
  errSend : SendRes
deriving DecidableEq

/-- Events the handlers emit over the socket (only the fields the claims are
about; `request_id` is modelled as a `Nat`, validation errors carry no id). -/
inductive Ev where
  | start (rid : Nat)
  | chunk (rid : Nat) (value : String)
  | endEv (rid : Nat) (full : String)
  | response (rid : Nat) (value : String)
  | error (code : String) (rid : Option Nat)
deriving DecidableEq

/-- Actions on the transport: a successful send, or a close attempt with a
close code. -/
inductive Act where
  | send (e : Ev)
  | close (code : Nat)
deriving DecidableEq

/-- How one request resolves, as seen by the enclosing receive loop. -/
inductive ReqOutcome where
  | completedOk    /- handler finished normally; loop continues -/
  | timedOut       /- timeout error event sent -/
  | errored        /- model / send error resolved by the handler -/
  | disconnected   /- WebSocketDisconnect escapes to the outer handler -/
  | fatal          /- some other exception escapes to the outer handler -/
deriving DecidableEq

/-- How a chunk send interrupted the token loop, if it did. -/
inductive Interrupt where
  | disc
  | err
deriving DecidableEq

/-- The token loop of `stream_tokens()` (app2/app3): for each chunk, normalize;
skip empty tokens; otherwise append to `full_text` and send the chunk event.
Returns the chunk events successfully sent, the final `full_text`, and the
interruption (if a chunk send raised). -/
def runSteps (rid : Nat) (acc : String) : List ChunkStep → List Ev × String × Option Interrupt
  | [] => ([], acc, none)
  | st :: rest =>
    if to_text st.raw = "" then
      runSteps rid acc rest
    else
      match st.sendRes with
      | .ok =>
        (Ev.chunk rid (to_text st.raw) :: (runSteps rid (acc ++ to_text st.raw) rest).1,
         (runSteps rid (acc ++ to_text st.raw) rest).2)
      | .disc => ([], acc ++ to_text st.raw, some .disc)
      | .err => ([], acc ++ to_text st.raw, some .err)

/-- The best-effort `STREAM_ERROR` report (app2/app3): the send is wrapped in
`try/except Exception: pass`, so a failing send emits nothing and the failure
is swallowed. -/
def errEvs (rid : Nat) : SendRes → List Ev
  | .ok => [Ev.error "STREAM_ERROR" (some rid)]
  | .disc => []
  | .err => []

/-- Body of one streaming request (the `async with lock:` block shared by
app2's and app3's `ws_chat_stream`): emit `start`, run the token loop under
`asyncio.wait_for(..., 120)`, then emit `end` on exhaustion, `STREAM_TIMEOUT`
on timeout, or best-effort `STREAM_ERROR` on any other failure;
`WebSocketDisconnect` is re-raised untouched. -/
def streamBody (rid : Nat) (sc : StreamScenario) : List Ev × ReqOutcome :=
  match sc.startSend with
  | .disc => ([], .disconnected)
  | .err => ([], .fatal)
  | .ok =>
    let r := runSteps rid "" sc.steps
    match r.2.2 with
    | some .disc => (Ev.start rid :: r.1, .disconnected)
    | some .err => (Ev.start rid :: (r.1 ++ errEvs rid sc.errSend), .errored)
    | none =>
      match sc.term with
      | .raised => (Ev.start rid :: (r.1 ++ errEvs rid sc.errSend), .errored)
      | .timeout =>
        match sc.timeoutSend with
        | .ok => (Ev.start rid :: (r.1 ++ [Ev.error "STREAM_TIMEOUT" (some rid)]), .timedOut)
        | .disc => (Ev.start rid :: r.1, .disconnected)
        | .err => (Ev.start rid :: r.1, .fatal)
      | .done =>
        match sc.endSend with
        | .ok => (Ev.start rid :: (r.1 ++ [Ev.endEv rid r.2.1]), .completedOk)
        | .disc => (Ev.start rid :: r.1, .disconnected)
        | .err => (Ev.start rid :: (r.1 ++ errEvs rid sc.errSend), .errored)

/-- Body of one non-streaming request (the `async with lock:` block of app2's
and app3's `ws_chat_non_stream`): invoke the model under a 60s timeout, send
the response, or an `LLM_TIMEOUT` / `LLM_ERROR` event (neither protected by a
try/except of its own). -/
def nonStreamBody (rid : Nat) (sc : NonStreamScenario) : List Ev × ReqOutcome :=
  match sc.invoke with
  | .result v =>
    match sc.respSend with
    | .ok => ([Ev.response rid (to_text v)], .completedOk)
    | .disc => ([], .disconnected)
    | .err => ([], .fatal)
  | .timeout =>
    match sc.errSend with
    | .ok => ([Ev.error "LLM_TIMEOUT" (some rid)], .timedOut)
    | .disc => ([], .disconnected)
    | .err => ([], .fatal)
  | .failure =>
    match sc.errSend with
    | .ok => ([Ev.error "LLM_ERROR" (some rid)], .errored)
    | .disc => ([], .disconnected)
    | .err => ([], .fatal)

/-- One iteration's worth of external input to the receive loop:
`receive_json` raises `WebSocketDisconnect`, raises some other exception, or
yields a JSON payload (with the outcome of a validation-error report send, the
request id the handler would draw, and the request's scenario). -/
inductive FrameIn (σ : Type) where
  | disconnect
  | recvError (reportSend : SendRes)
  | frame (payload : JsonVal) (vSend : SendRes) (rid : Nat) (sc : σ)

/-- Result of processing one frame: the loop continues, or exits and the
connection is to be closed with the given code. -/
inductive FrameRes where
  | cont (evs : List Ev)
  | exit_ (evs : List Ev) (code : Nat)

/-- Whether the receive loop has exited (close code decided) or is still
waiting for more frames. -/
inductive LoopEnd where
  | pending (code : Nat)
  | exited (code : Nat)
deriving DecidableEq

/-- The `while True:` receive loop: fold the step function over the scripted
frames, accumulating successfully sent events, stopping at the first exit. -/
def runLoop {σ : Type} (step : Nat → FrameIn σ → FrameRes) :
    List (FrameIn σ) → Nat → List Ev × LoopEnd
  | [], code => ([], .pending code)
  | f :: fs, code =>
    match step code f with
    | .cont evs =>
      let r := runLoop step fs code
      (evs ++ r.1, r.2)
    | .exit_ evs c => (evs, .exited c)

/-- app2/app3 `safe_close(websocket, code)`: best-effort close; a failure of
the close call is swallowed (`try/except Exception: pass`), so the recorded
behaviour does not depend on whether the close succeeds. -/
def safe_close (code : Nat) (_closeFail : Bool) : List Act :=
  [Act.close code]

/-- Assemble a connection run from a loop result: the sent events, then (only
once the loop has exited) the single close attempt of the `finally:` block. -/
def assembleRun (r : List Ev × LoopEnd) (closeFail : Bool) : List Act :=
  (r.1.map Act.send) ++
    (match r.2 with
     | .exited c => safe_close c closeFail
     | .pending _ => [])

namespace App3

/-- app3 close-code mapping of a request outcome, at entry close code `code`:
success continues; timeout breaks with 1013; a resolved error breaks with 1011;
a `WebSocketDisconnect` reaches the outer handler with `code` unchanged; any
other escaping exception reaches the outer `except Exception` which sets 1011. -/
def mapOutcome (code : Nat) (evs : List Ev) : ReqOutcome → FrameRes
  | .completedOk => .cont evs
  | .timedOut => .exit_ evs 1013
  | .errored => .exit_ evs 1011
  | .disconnected => .exit_ evs code
  | .fatal => .exit_ evs 1011

/-- app3 `except ValidationError` branch (both endpoints): a `max_length`
failure on `message` sends `MESSAGE_TOO_BIG` and breaks with 1009; other
validation failures send `INVALID_PAYLOAD` and continue.  Neither report send
is protected: its own failure escapes to the outer handler. -/
def valFail (code : Nat) (errs : List PydErr) (vSend : SendRes) : FrameRes :=
  if is_message_too_big_error errs then
    match vSend with
    | .ok => .exit_ [Ev.error "MESSAGE_TOO_BIG" none] 1009
    | .disc => .exit_ [] code
    | .err => .exit_ [] 1011
  else
    match vSend with
    | .ok => .cont [Ev.error "INVALID_PAYLOAD" none]
    | .disc => .exit_ [] code
    | .err => .exit_ [] 1011

/-- One iteration of app3's `ws_chat_stream` loop.  A non-JSON receive error is
not a `ValidationError`, so it escapes to the outer `except Exception` (1011). -/
def stepStream (code : Nat) : FrameIn StreamScenario → FrameRes
  | .disconnect => .exit_ [] code
  | .recvError _ => .exit_ [] 1011
  | .frame j vSend rid sc =>
    match chatRequestValidate j with
    | .error errs => valFail code errs vSend
    | .ok _ =>
      let r := streamBody rid sc
      mapOutcome code r.1 r.2

/-- One iteration of app3's `ws_chat_non_stream` loop. -/
def stepNonStream (code : Nat) : FrameIn NonStreamScenario → FrameRes
  | .disconnect => .exit_ [] code
  | .recvError _ => .exit_ [] 1011
  | .frame j vSend rid sc =>
    match chatRequestValidate j with
    | .error errs => valFail code errs vSend
    | .ok _ =>
      let r := nonStreamBody rid sc
      mapOutcome code r.1 r.2

/-- app3 `ws_chat_stream` (`/ws/chat2`): loop from close code 1000; the
`finally:` block makes the single close attempt once the loop exits. -/
def ws_chat_stream (frames : List (FrameIn StreamScenario)) (closeFail : Bool) : List Act :=
  assembleRun (runLoop stepStream frames 1000) closeFail

/-- app3 `ws_chat_non_stream` (`/ws/chat`). -/
def ws_chat_non_stream (frames : List (FrameIn NonStreamScenario)) (closeFail : Bool) : List Act :=
  assembleRun (runLoop stepNonStream frames 1000) closeFail

end App3

namespace App2

/-- app2 outcome mapping: no branch breaks the loop, so timeouts and resolved
errors leave the connection open; escaping exceptions reach the outer handler,
whose `finally:` closes with the hardcoded normal-closure code 1000. -/
def mapOutcome (evs : List Ev) : ReqOutcome → FrameRes
  | .completedOk => .cont evs
  | .timedOut => .cont evs
  | .errored => .cont evs
  | .disconnected => .exit_ evs 1000
  | .fatal => .exit_ evs 1000

/-- One iteration of app2's `ws_chat_non_stream` loop, via
`receive_chat_request`: any `ValidationError` sends `INVALID_PAYLOAD` (app2
never distinguishes too-big) and continues; a non-JSON receive error sends
`BAD_REQUEST` and continues; failures of these report sends escape outwards. -/
def stepNonStream (_code : Nat) : FrameIn NonStreamScenario → FrameRes
  | .disconnect => .exit_ [] 1000
  | .recvError s =>
    match s with
    | .ok => .cont [Ev.error "BAD_REQUEST" none]
    | .disc => .exit_ [] 1000
    | .err => .exit_ [] 1000
  | .frame j vSend rid sc =>
    match chatRequestValidate j with
    | .error _ =>
      match vSend with
      | .ok => .cont [Ev.error "INVALID_PAYLOAD" none]
      | .disc => .exit_ [] 1000
      | .err => .exit_ [] 1000
    | .ok _ =>
      let r := nonStreamBody rid sc
      mapOutcome r.1 r.2

/-- One iteration of app2's `ws_chat_stream` loop. -/
def stepStream (_code : Nat) : FrameIn StreamScenario → FrameRes
  | .disconnect => .exit_ [] 1000
  | .recvError s =>
    match s with
    | .ok => .cont [Ev.error "BAD_REQUEST" none]
    | .disc => .exit_ [] 1000
    | .err => .exit_ [] 1000
  | .frame j vSend rid sc =>
    match chatRequestValidate j with
    | .error _ =>
      match vSend with
      | .ok => .cont [Ev.error "INVALID_PAYLOAD" none]
      | .disc => .exit_ [] 1000
      | .err => .exit_ [] 1000
    | .ok _ =>
      let r := streamBody rid sc
      mapOutcome r.1 r.2

/-- app2 `ws_chat_non_stream` (`/ws/chat`): `finally: safe_close(..., 1000)`. -/
def ws_chat_non_stream (frames : List (FrameIn NonStreamScenario)) (closeFail : Bool) : List Act :=
  assembleRun (runLoop stepNonStream frames 1000) closeFail

/-- app2 `ws_chat_stream` (`/ws/chat2`). -/
def ws_chat_stream (frames : List (FrameIn StreamScenario)) (closeFail : Bool) : List Act :=
  assembleRun (runLoop stepStream frames 1000) closeFail

end App2

/-- Python's `str.strip()` (restricted to the ASCII whitespace characters
shared by Python's and Lean's whitespace predicates). -/
def pyStrip (s : String) : String :=
  String.mk (((s.toList.dropWhile Char.isWhitespace).reverse.dropWhile Char.isWhitespace).reverse)

namespace App1

/-- app.py inbound check (`ws_chat`, lines 30-35): `data.get("message", "")`
must be a string whose `strip()` is non-empty. -/
def message_ok (data : List (String × JsonVal)) : Bool :=
  match (lookupField "message" data).getD (.str "") with
  | .str s => !(pyStrip s == "")
  | _ => false

end App1

/-- Whether an event is a chunk of the given request. -/
def isChunkFor (rid : Nat) : Ev → Bool
  | .chunk r _ => r == rid
  | _ => false

/-- Whether an event is a terminal event (`end` or `error`) of the given
request. -/
def isTerminalFor (rid : Nat) : Ev → Bool
  | .endEv r _ => r == rid
  | .error _ r => r == some rid
  | _ => false

/-- Concatenation, in order, of the `value` fields of the chunk events in a
trace. -/
def chunkConcat : List Ev → String
  | [] => ""
  | Ev.chunk _ v :: rest => v ++ chunkConcat rest
  | _ :: rest => chunkConcat rest

/-- A streaming scenario in which the client stays connected and every send
succeeds. -/
def goodSends (sc : StreamScenario) : Bool :=
  (sc.startSend == .ok) && sc.steps.all (fun st => st.sendRes == .ok)
    && (sc.endSend == .ok) && (sc.timeoutSend == .ok) && (sc.errSend == .ok)

/-- Whether a JSON value is a string. -/
def isStrVal : JsonVal → Bool
  | .str _ => true
  | _ => false

/-- Whether a JSON value is an object. -/
def isObjVal : JsonVal → Bool
  | .obj _ => true
  | _ => false

/-- The same streaming scenario with the `STREAM_ERROR` report send replaced. -/
def setErrSend (sc : StreamScenario) (e : SendRes) : StreamScenario :=
  ⟨sc.startSend, sc.steps, sc.term, sc.endSend, sc.timeoutSend, e⟩

/-- Whether an event is an `error` event with the given code. -/
def isCodeErr (c : String) : Ev → Bool
  | .error c' _ => c' == c
  | _ => false

/-- Whether a transport action is a close attempt. -/
def isClose : Act → Bool
  | .close _ => true
  | .send _ => false

/-- Number of close attempts in an action trace. -/
def closeCount (l : List Act) : Nat := (l.filter isClose).length

/-- Whether the receive loop has exited. -/
def loopExited : LoopEnd → Bool
  | .exited _ => true
  | .pending _ => false

/-- Whether a frame result lets the loop continue. -/
def isContR : FrameRes → Bool
  | .cont _ => true
  | .exit_ _ _ => false

/-- Events recorded by a frame result. -/
def contEvs : FrameRes → List Ev
  | .cont evs => evs
  | .exit_ evs _ => evs


/-! Supporting lemmas about strings and the token loop. -/

lemma string_append_assoc (a b c : String) : a ++ b ++ c = a ++ (b ++ c) := by
  obtain ⟨la⟩ := a; obtain ⟨lb⟩ := b; obtain ⟨lc⟩ := c
  show String.mk (la ++ lb ++ lc) = String.mk (la ++ (lb ++ lc))
  rw [List.append_assoc]

lemma runSteps_chunks (rid : Nat) :
    ∀ (steps : List ChunkStep) (acc : String),
      ∀ e ∈ (runSteps rid acc steps).1, isChunkFor rid e = true := by
  intro steps
  induction steps with
  | nil => intro acc e he; simp [runSteps] at he
  | cons st rest ih =>
    obtain ⟨raw, sres⟩ := st
    intro acc e he
    by_cases ht : to_text raw = ""
    · rw [runSteps, if_pos ht] at he
      exact ih acc e he
    · cases sres with
      | ok =>
        rw [runSteps, if_neg ht] at he
        rcases List.mem_cons.mp he with h1 | h2
        · subst h1; simp [isChunkFor]
        · exact ih _ e h2
      | disc =>
        rw [runSteps, if_neg ht] at he
        exact absurd he (List.not_mem_nil e)
      | err =>
        rw [runSteps, if_neg ht] at he
        exact absurd he (List.not_mem_nil e)

lemma runSteps_ok (rid : Nat) :
    ∀ (steps : List ChunkStep) (acc : String),
      (∀ st ∈ steps, st.sendRes = .ok) →
      (runSteps rid acc steps).2.2 = none := by
  intro steps
  induction steps with
  | nil => intro acc _; simp [runSteps]
  | cons st rest ih =>
    intro acc h
    have hok : st.sendRes = .ok := h st (List.mem_cons_self st rest)
    have hrest := fun x hx => h x (List.mem_cons_of_mem st hx)
    by_cases ht : to_text st.raw = ""
    · rw [runSteps, if_pos ht]
      exact ih acc hrest
    · rw [runSteps, if_neg ht, hok]
      exact ih _ hrest

lemma runSteps_full (rid : Nat) :
    ∀ (steps : List ChunkStep) (acc : String),
      (runSteps rid acc steps).2.2 = none →
      (runSteps rid acc steps).2.1 = acc ++ chunkConcat (runSteps rid acc steps).1 := by
  intro steps
  induction steps with
  | nil => intro acc _; simp [runSteps, chunkConcat]
  | cons st rest ih =>
    obtain ⟨raw, sres⟩ := st
    intro acc h
    by_cases ht : to_text raw = ""
    · rw [runSteps, if_pos ht] at h ⊢
      exact ih acc h
    · cases sres with
      | ok =>
        rw [runSteps, if_neg ht] at h ⊢
        have h' : (runSteps rid (acc ++ to_text raw) rest).2.2 = none := h
        show (runSteps rid (acc ++ to_text raw) rest).2.1
            = acc ++ (to_text raw ++ chunkConcat (runSteps rid (acc ++ to_text raw) rest).1)
        rw [ih _ h', string_append_assoc]
      | disc =>
        rw [runSteps, if_neg ht] at h
        exact Option.noConfusion h
      | err =>
        rw [runSteps, if_neg ht] at h
        exact Option.noConfusion h

lemma runSteps_empty (rid : Nat) :
    ∀ (steps : List ChunkStep) (acc : String),
      (∀ st ∈ steps, to_text st.raw = "") →
      runSteps rid acc steps = ([], acc, none) := by
  intro steps
  induction steps with
  | nil => intro acc _; simp [runSteps]
  | cons st rest ih =>
    intro acc h
    rw [runSteps, if_pos (h st (List.mem_cons_self st rest))]
    exact ih acc (fun x hx => h x (List.mem_cons_of_mem st hx))

/-- C5: for every input value the text normalizer `to_text` returns a string
and never fails: `None` maps to `""`; a value with a `.content` attribute maps
to that attribute (with `""` substituted when the attribute is `None` or
empty); any other value maps to its string representation. -/
theorem C5_to_text_total_contract :
    (to_text .noneVal = "")
    ∧ (∀ s, to_text (.withContent (some s)) = s)
    ∧ (to_text (.withContent none) = "")
    ∧ (to_text (.withContent (some "")) = "")
    ∧ (∀ s, to_text (.plain s) = s)
    ∧ (∀ r, to_text (.other r) = r) :=
  ⟨rfl, fun _ => rfl, rfl, rfl, fun _ => rfl, fun _ => rfl⟩

/-- C3: a payload whose "message" string has exactly 8000 characters validates
to a `ChatRequest`; one with 8001 or more characters fails validation with an
error that `is_message_too_big_error` classifies as the oversized-field
failure (hence `MESSAGE_TOO_BIG`, not the generic classification). -/
theorem C3_length_boundary (s : String) :
    (s.length = 8000 →
      chatRequestValidate (.obj [("message", .str s)]) = .ok ⟨s⟩)
    ∧ (8001 ≤ s.length →
      ∃ errs, chatRequestValidate (.obj [("message", .str s)]) = .error errs
        ∧ is_message_too_big_error errs = true) := by
  have hl : lookupField "message" [("message", JsonVal.str s)] = some (.str s) := rfl
  constructor
  · intro h
    rw [chatRequestValidate, hl, validateMessage, if_neg (by omega), if_neg (by omega)]
  · intro h
    refine ⟨[tooLongErr], ?_, by decide⟩
    rw [chatRequestValidate, hl, validateMessage, if_neg (by omega), if_pos (by omega)]

/-- Witness for C3 at concrete messages of 8000 and 8001 characters. -/
theorem C3_length_boundary_witness :
    ((String.mk (List.replicate 8000 'a')).length = 8000
      ∧ chatRequestValidate (.obj [("message", .str (String.mk (List.replicate 8000 'a')))])
          = .ok ⟨String.mk (List.replicate 8000 'a')⟩)
    ∧ (8001 ≤ (String.mk (List.replicate 8001 'b')).length
      ∧ ∃ errs, chatRequestValidate (.obj [("message", .str (String.mk (List.replicate 8001 'b')))])
          = .error errs ∧ is_message_too_big_error errs = true) := by
  have h8000 : (String.mk (List.replicate 8000 'a')).length = 8000 := by
    show (List.replicate 8000 'a').length = 8000
    exact List.length_replicate 8000 'a'
  have h8001 : (String.mk (List.replicate 8001 'b')).length = 8001 := by
    show (List.replicate 8001 'b').length = 8001
    exact List.length_replicate 8001 'b'
  exact ⟨⟨h8000, (C3_length_boundary _).1 h8000⟩,
    ⟨by omega, (C3_length_boundary _).2 (by omega)⟩⟩

/-- C4 counterexample: a whitespace-only (strip-empty) message of length 1 is
accepted by the Pydantic validator of app2/app3 and produces a `ChatRequest`,
contradicting the claim that whitespace-only messages fail validation. -/
theorem C4_counterexample :
    pyStrip " " = ""
    ∧ chatRequestValidate (.obj [("message", .str " ")]) = .ok ⟨" "⟩ :=
  ⟨rfl, rfl⟩

/-- C4 (amended): a payload whose "message" field is missing, not a string, or
the empty string fails validation with an error the downstream classifier does
not treat as oversized (hence `INVALID_PAYLOAD`), as does a non-object
payload; whitespace-only-but-nonempty messages, however, are accepted by the
Pydantic validator of app2/app3 — only app.py's inline check (which produces
no `ChatRequest` at all) rejects them. -/
theorem C4_generic_validation_failures :
    (∀ fields, lookupField "message" fields = none →
      chatRequestValidate (.obj fields) = .error [missingErr]
        ∧ is_message_too_big_error [missingErr] = false)
    ∧ (∀ fields v, lookupField "message" fields = some v → isStrVal v = false →
      chatRequestValidate (.obj fields) = .error [strTypeErr]
        ∧ is_message_too_big_error [strTypeErr] = false)
    ∧ (∀ fields, lookupField "message" fields = some (.str "") →
      chatRequestValidate (.obj fields) = .error [tooShortErr]
        ∧ is_message_too_big_error [tooShortErr] = false)
    ∧ (∀ j, isObjVal j = false →
      chatRequestValidate j = .error [modelTypeErr]
        ∧ is_message_too_big_error [modelTypeErr] = false)
    ∧ (∀ fields s, lookupField "message" fields = some (.str s) → pyStrip s = "" →
      App1.message_ok fields = false) := by
  refine ⟨?_, ?_, ?_, ?_, ?_⟩
  · intro fields h
    refine ⟨?_, by decide⟩
    rw [chatRequestValidate, h]
    rfl
  · intro fields v h hv
    refine ⟨?_, by decide⟩
    rw [chatRequestValidate, h]
    cases v with
    | str s => simp [isStrVal] at hv
    | null => rfl
    | boolVal b => rfl
    | num n => rfl
    | arr xs => rfl
    | obj fs => rfl
  · intro fields h
    refine ⟨?_, by decide⟩
    rw [chatRequestValidate, h]
    rfl
  · intro j hj
    refine ⟨?_, by decide⟩
    cases j with
    | obj fs => simp [isObjVal] at hj
    | null => rfl
    | boolVal b => rfl
    | num n => rfl
    | str s => rfl
    | arr xs => rfl
  · intro fields s h hs
    simp [App1.message_ok, h, hs]

/-- Witness for C4's amended theorem at concrete payloads: `{}`,
`{"message": 1}`, `{"message": ""}`, a non-object payload, and a
whitespace-only message for app.py. -/
theorem C4_generic_validation_failures_witness :
    (chatRequestValidate (.obj []) = .error [missingErr]
      ∧ is_message_too_big_error [missingErr] = false)
    ∧ (chatRequestValidate (.obj [("message", .num 1)]) = .error [strTypeErr]
      ∧ is_message_too_big_error [strTypeErr] = false)
    ∧ (chatRequestValidate (.obj [("message", .str "")]) = .error [tooShortErr]
      ∧ is_message_too_big_error [tooShortErr] = false)
    ∧ (chatRequestValidate (.arr []) = .error [modelTypeErr]
      ∧ is_message_too_big_error [modelTypeErr] = false)
    ∧ App1.message_ok [("message", .str "  ")] = false :=
  ⟨C4_generic_validation_failures.1 [] rfl,
   C4_generic_validation_failures.2.1 [("message", .num 1)] (.num 1) rfl rfl,
   C4_generic_validation_failures.2.2.1 [("message", .str "")] rfl,
   C4_generic_validation_failures.2.2.2.1 (.arr []) rfl,
   C4_generic_validation_failures.2.2.2.2 [("message", .str "  ")] "  " rfl (by decide)⟩

lemma empty_string_append (s : String) : "" ++ s = s := by
  obtain ⟨l⟩ := s
  show String.mk ([] ++ l) = String.mk l
  rw [List.nil_append]

lemma getLast_cons_cases {α : Type} :
    ∀ (l : List α) (a b : α), (a :: l).getLast? = some b → b = a ∨ b ∈ l := by
  intro l
  induction l with
  | nil =>
    intro a b h
    rw [List.getLast?_singleton] at h
    exact Or.inl (Option.some.inj h).symm
  | cons c l' ih =>
    intro a b h
    rw [List.getLast?_cons_cons] at h
    rcases ih c b h with h1 | h2
    · exact Or.inr (h1 ▸ List.mem_cons_self c l')
    · exact Or.inr (List.mem_cons_of_mem c h2)

lemma no_end_of_last_error (rid : Nat) (c : String) (rid' : Option Nat)
    (l pre : List Ev) (full : String)
    (h : Ev.start rid :: (l ++ [Ev.error c rid']) = pre ++ [Ev.endEv rid full]) : False := by
  have hg := congrArg List.getLast? h
  rw [show Ev.start rid :: (l ++ [Ev.error c rid'])
        = (Ev.start rid :: l) ++ [Ev.error c rid'] from rfl,
      List.getLast?_concat, List.getLast?_concat] at hg
  simp at hg

lemma no_end_of_chunky (rid : Nat) (l pre : List Ev) (full : String)
    (hl : ∀ e ∈ l, isChunkFor rid e = true)
    (h : Ev.start rid :: l = pre ++ [Ev.endEv rid full]) : False := by
  have hg := congrArg List.getLast? h
  rw [List.getLast?_concat] at hg
  rcases getLast_cons_cases l (Ev.start rid) (Ev.endEv rid full) hg with h1 | h2
  · exact Ev.noConfusion h1
  · have hc := hl _ h2
    simp [isChunkFor] at hc

/-- C1 (corrected, amended): if the client stays connected and every send
succeeds, a streaming request emits exactly one `start`, zero or more chunks,
then exactly one terminal event (`end` or `error`); in general the emitted
sequence is always a prefix of that shape — possibly without a terminal event
(client disconnect mid-request or a failing terminal send), possibly without
even the `start` — and in every case there is never more than one terminal
event and never a chunk after the terminal event. -/
theorem C1_stream_event_shape (rid : Nat) (sc : StreamScenario) :
    (goodSends sc = true →
      ∃ cs t, (streamBody rid sc).1 = Ev.start rid :: (cs ++ [t])
        ∧ (∀ e ∈ cs, isChunkFor rid e = true) ∧ isTerminalFor rid t = true)
    ∧ ((streamBody rid sc).1 = []
      ∨ ∃ cs rest, (streamBody rid sc).1 = Ev.start rid :: (cs ++ rest)
        ∧ (∀ e ∈ cs, isChunkFor rid e = true)
        ∧ (rest = [] ∨ ∃ t, rest = [t] ∧ isTerminalFor rid t = true)) := by
  obtain ⟨ss, steps, term, es, ts, errs⟩ := sc
  have hchunks := runSteps_chunks rid steps ""
  constructor
  · intro hg
    simp only [goodSends, Bool.and_eq_true, beq_iff_eq, List.all_eq_true] at hg
    obtain ⟨⟨⟨⟨h1, h2⟩, h3⟩, h4⟩, h5⟩ := hg
    have hnone := runSteps_ok rid steps "" h2
    subst h1 h3 h4 h5
    cases term with
    | done =>
      refine ⟨(runSteps rid "" steps).1, Ev.endEv rid (runSteps rid "" steps).2.1,
        ?_, hchunks, by simp [isTerminalFor]⟩
      simp [streamBody, hnone]
    | raised =>
      refine ⟨(runSteps rid "" steps).1, Ev.error "STREAM_ERROR" (some rid),
        ?_, hchunks, by simp [isTerminalFor]⟩
      simp [streamBody, hnone, errEvs]
    | timeout =>
      refine ⟨(runSteps rid "" steps).1, Ev.error "STREAM_TIMEOUT" (some rid),
        ?_, hchunks, by simp [isTerminalFor]⟩
      simp [streamBody, hnone]
  · cases ss with
    | disc => exact Or.inl rfl
    | err => exact Or.inl rfl
    | ok =>
      right
      rcases hi : (runSteps rid "" steps).2.2 with _ | i
      · cases term with
        | done =>
          cases es with
          | ok =>
            exact ⟨(runSteps rid "" steps).1, [Ev.endEv rid (runSteps rid "" steps).2.1],
              by simp [streamBody, hi], hchunks,
              Or.inr ⟨_, rfl, by simp [isTerminalFor]⟩⟩
          | disc =>
            exact ⟨(runSteps rid "" steps).1, [],
              by simp [streamBody, hi], hchunks, Or.inl rfl⟩
          | err =>
            cases errs with
            | ok =>
              exact ⟨(runSteps rid "" steps).1, [Ev.error "STREAM_ERROR" (some rid)],
                by simp [streamBody, hi, errEvs], hchunks,
                Or.inr ⟨_, rfl, by simp [isTerminalFor]⟩⟩
            | disc =>
              exact ⟨(runSteps rid "" steps).1, [],
                by simp [streamBody, hi, errEvs], hchunks, Or.inl rfl⟩
            | err =>
              exact ⟨(runSteps rid "" steps).1, [],
                by simp [streamBody, hi, errEvs], hchunks, Or.inl rfl⟩
        | raised =>
          cases errs with
          | ok =>
            exact ⟨(runSteps rid "" steps).1, [Ev.error "STREAM_ERROR" (some rid)],
              by simp [streamBody, hi, errEvs], hchunks,
              Or.inr ⟨_, rfl, by simp [isTerminalFor]⟩⟩
          | disc =>
            exact ⟨(runSteps rid "" steps).1, [],
              by simp [streamBody, hi, errEvs], hchunks, Or.inl rfl⟩
          | err =>
            exact ⟨(runSteps rid "" steps).1, [],
              by simp [streamBody, hi, errEvs], hchunks, Or.inl rfl⟩
        | timeout =>
          cases ts with
          | ok =>
            exact ⟨(runSteps rid "" steps).1, [Ev.error "STREAM_TIMEOUT" (some rid)],
              by simp [streamBody, hi], hchunks,
              Or.inr ⟨_, rfl, by simp [isTerminalFor]⟩⟩
          | disc =>
            exact ⟨(runSteps rid "" steps).1, [],
              by simp [streamBody, hi], hchunks, Or.inl rfl⟩
          | err =>
            exact ⟨(runSteps rid "" steps).1, [],
              by simp [streamBody, hi], hchunks, Or.inl rfl⟩
      · cases i with
        | disc =>
          exact ⟨(runSteps rid "" steps).1, [],
            by simp [streamBody, hi], hchunks, Or.inl rfl⟩
        | err =>
          cases errs with
          | ok =>
            exact ⟨(runSteps rid "" steps).1, [Ev.error "STREAM_ERROR" (some rid)],
              by simp [streamBody, hi, errEvs], hchunks,
              Or.inr ⟨_, rfl, by simp [isTerminalFor]⟩⟩
          | disc =>
            exact ⟨(runSteps rid "" steps).1, [],
              by simp [streamBody, hi, errEvs], hchunks, Or.inl rfl⟩
          | err =>
            exact ⟨(runSteps rid "" steps).1, [],
              by simp [streamBody, hi, errEvs], hchunks, Or.inl rfl⟩

/-- C1 counterexample: a streaming request whose first chunk send raises
`WebSocketDisconnect` (client gone mid-stream) emits `start` and then no
terminal event at all, contradicting the claimed exactly-one-terminal shape. -/
theorem C1_counterexample :
    (streamBody 0 ⟨.ok, [⟨.plain "x", .disc⟩], .done, .ok, .ok, .ok⟩).1 = [Ev.start 0]
    ∧ (∀ e ∈ [Ev.start 0], isTerminalFor 0 e = false) := by decide

/-- Witness for C1's amended theorem at a concrete all-sends-succeed scenario
(model raises mid-stream after one chunk). -/
theorem C1_stream_event_shape_witness :
    goodSends ⟨.ok, [⟨.plain "He", .ok⟩], .raised, .ok, .ok, .ok⟩ = true
    ∧ ∃ cs t, (streamBody 7 ⟨.ok, [⟨.plain "He", .ok⟩], .raised, .ok, .ok, .ok⟩).1
        = Ev.start 7 :: (cs ++ [t])
        ∧ (∀ e ∈ cs, isChunkFor 7 e = true) ∧ isTerminalFor 7 t = true :=
  ⟨by decide, (C1_stream_event_shape 7 _).1 (by decide)⟩

/-- C2: whenever a streaming request's emitted trace ends with an `end` event,
the `full` field of that event equals the concatenation, in emission order, of
the `value` fields of the chunk events emitted for that request. -/
theorem C2_end_full_is_chunk_concat (rid : Nat) (sc : StreamScenario)
    (pre : List Ev) (full : String)
    (h : (streamBody rid sc).1 = pre ++ [Ev.endEv rid full]) :
    full = chunkConcat pre := by
  obtain ⟨ss, steps, term, es, ts, errs⟩ := sc
  have hchunks := runSteps_chunks rid steps ""
  cases ss with
  | disc =>
    simp only [streamBody] at h
    have hlen := congrArg List.length h
    simp at hlen
  | err =>
    simp only [streamBody] at h
    have hlen := congrArg List.length h
    simp at hlen
  | ok =>
    rcases hi : (runSteps rid "" steps).2.2 with _ | i
    · cases term with
      | done =>
        cases es with
        | ok =>
          simp only [streamBody, hi] at h
          have happ : (Ev.start rid :: (runSteps rid "" steps).1)
                ++ [Ev.endEv rid (runSteps rid "" steps).2.1]
              = pre ++ [Ev.endEv rid full] := h
          obtain ⟨h1, h2⟩ := List.append_inj' happ rfl
          have h3 : Ev.endEv rid (runSteps rid "" steps).2.1 = Ev.endEv rid full :=
            (List.cons.inj h2).1
          have h4 : (runSteps rid "" steps).2.1 = full := by
            injection h3
          have h5 := runSteps_full rid steps "" hi
          rw [empty_string_append] at h5
          rw [← h1]
          show full = chunkConcat ((runSteps rid "" steps).1)
          rw [← h4, h5]
        | disc =>
          simp only [streamBody, hi] at h
          exact absurd h (fun hh => no_end_of_chunky rid _ pre full hchunks hh)
        | err =>
          cases errs with
          | ok =>
            simp only [streamBody, hi, errEvs] at h
            exact absurd h (fun hh => no_end_of_last_error rid _ _ _ pre full hh)
          | disc =>
            simp only [streamBody, hi, errEvs, List.append_nil] at h
            exact absurd h (fun hh => no_end_of_chunky rid _ pre full hchunks hh)
          | err =>
            simp only [streamBody, hi, errEvs, List.append_nil] at h
            exact absurd h (fun hh => no_end_of_chunky rid _ pre full hchunks hh)
      | raised =>
        cases errs with
        | ok =>
          simp only [streamBody, hi, errEvs] at h
          exact absurd h (fun hh => no_end_of_last_error rid _ _ _ pre full hh)
        | disc =>
          simp only [streamBody, hi, errEvs, List.append_nil] at h
          exact absurd h (fun hh => no_end_of_chunky rid _ pre full hchunks hh)
        | err =>
          simp only [streamBody, hi, errEvs, List.append_nil] at h
          exact absurd h (fun hh => no_end_of_chunky rid _ pre full hchunks hh)
      | timeout =>
        cases ts with
        | ok =>
          simp only [streamBody, hi] at h
          exact absurd h (fun hh => no_end_of_last_error rid _ _ _ pre full hh)
        | disc =>
          simp only [streamBody, hi] at h
          exact absurd h (fun hh => no_end_of_chunky rid _ pre full hchunks hh)
        | err =>
          simp only [streamBody, hi] at h
          exact absurd h (fun hh => no_end_of_chunky rid _ pre full hchunks hh)
    · cases i with
      | disc =>
        simp only [streamBody, hi] at h
        exact absurd h (fun hh => no_end_of_chunky rid _ pre full hchunks hh)
      | err =>
        cases errs with
        | ok =>
          simp only [streamBody, hi, errEvs] at h
          exact absurd h (fun hh => no_end_of_last_error rid _ _ _ pre full hh)
        | disc =>
          simp only [streamBody, hi, errEvs, List.append_nil] at h
          exact absurd h (fun hh => no_end_of_chunky rid _ pre full hchunks hh)
        | err =>
          simp only [streamBody, hi, errEvs, List.append_nil] at h
          exact absurd h (fun hh => no_end_of_chunky rid _ pre full hchunks hh)

/-- Witness for C2 at the spec's Scenario C: tokens "He" and "llo" produce
`end` with full "Hello", the concatenation of the emitted chunk values. -/
theorem C2_end_full_is_chunk_concat_witness :
    "Hello" = chunkConcat [Ev.start 0, Ev.chunk 0 "He", Ev.chunk 0 "llo"] :=
  C2_end_full_is_chunk_concat 0 ⟨.ok, [⟨.plain "He", .ok⟩, ⟨.plain "llo", .ok⟩], .done, .ok, .ok, .ok⟩
    [Ev.start 0, Ev.chunk 0 "He", Ev.chunk 0 "llo"] "Hello" (by decide)

/-- C10: a streaming request whose stream exhausts normally having produced no
tokens (or only tokens normalizing to the empty string) still emits `start`
followed by `end` with an empty `full`, and both app3's and app2's streaming
loops continue with the connection open. -/
theorem C10_empty_stream_still_start_end (rid : Nat) (sc : StreamScenario)
    (h1 : sc.startSend = .ok) (h2 : sc.term = .done) (h3 : sc.endSend = .ok)
    (h4 : ∀ st ∈ sc.steps, to_text st.raw = "") :
    streamBody rid sc = ([Ev.start rid, Ev.endEv rid ""], .completedOk)
    ∧ (∀ code j vs r, chatRequestValidate j = .ok r →
        App3.stepStream code (.frame j vs rid sc) = .cont [Ev.start rid, Ev.endEv rid ""]
        ∧ App2.stepStream code (.frame j vs rid sc) = .cont [Ev.start rid, Ev.endEv rid ""]) := by
  have hempty := runSteps_empty rid sc.steps "" h4
  have hsb : streamBody rid sc = ([Ev.start rid, Ev.endEv rid ""], .completedOk) := by
    simp [streamBody, h1, h2, h3, hempty]
  refine ⟨hsb, ?_⟩
  intro code j vs r hj
  constructor
  · simp [App3.stepStream, hj, hsb, App3.mapOutcome]
  · simp [App2.stepStream, hj, hsb, App2.mapOutcome]

/-- Witness for C10 at a concrete scenario: a `None` chunk and an
empty-content chunk, stream exhausting normally, on the valid payload
`{"message": "Hi"}`. -/
theorem C10_empty_stream_still_start_end_witness :
    streamBody 3 ⟨.ok, [⟨.noneVal, .ok⟩, ⟨.withContent none, .ok⟩], .done, .ok, .ok, .ok⟩
        = ([Ev.start 3, Ev.endEv 3 ""], .completedOk)
    ∧ (App3.stepStream 1000 (.frame (.obj [("message", .str "Hi")]) .ok 3
          ⟨.ok, [⟨.noneVal, .ok⟩, ⟨.withContent none, .ok⟩], .done, .ok, .ok, .ok⟩)
        = .cont [Ev.start 3, Ev.endEv 3 ""]
      ∧ App2.stepStream 1000 (.frame (.obj [("message", .str "Hi")]) .ok 3
          ⟨.ok, [⟨.noneVal, .ok⟩, ⟨.withContent none, .ok⟩], .done, .ok, .ok, .ok⟩)
        = .cont [Ev.start 3, Ev.endEv 3 ""]) :=
  ⟨(C10_empty_stream_still_start_end 3 _ rfl rfl rfl (by decide)).1,
   (C10_empty_stream_still_start_end 3 _ rfl rfl rfl (by decide)).2
      1000 (.obj [("message", .str "Hi")]) .ok ⟨"Hi"⟩ rfl⟩

/-! Supporting lemmas about the receive loop and close behaviour. -/

lemma map_send_filter_close (evs : List Ev) : (evs.map Act.send).filter isClose = [] := by
  induction evs with
  | nil => rfl
  | cons e rest ih => simp [isClose, ih]

lemma filter_errEvs (rid : Nat) (x : SendRes) :
    (errEvs rid x).filter (fun y => !isCodeErr "STREAM_ERROR" y) = [] := by
  cases x <;> simp [errEvs, isCodeErr]

lemma assembleRun_props (r : List Ev × LoopEnd) (b b' : Bool) :
    (assembleRun r b = assembleRun r b')
    ∧ closeCount (assembleRun r b) = (if loopExited r.2 = true then 1 else 0)
    ∧ (loopExited r.2 = true → ∃ c, (assembleRun r b).getLast? = some (Act.close c)) := by
  obtain ⟨evs, e⟩ := r
  cases e with
  | pending c =>
    refine ⟨rfl, ?_, ?_⟩
    · simp [assembleRun, closeCount, loopExited, map_send_filter_close]
    · intro h; simp [loopExited] at h
  | exited c =>
    refine ⟨rfl, ?_, ?_⟩
    · simp [assembleRun, closeCount, loopExited, safe_close, List.filter_append,
        map_send_filter_close, isClose]
    · intro _
      exact ⟨c, by simp [assembleRun, safe_close, List.getLast?_concat]⟩

lemma runLoop_cont_append {σ : Type} (step : Nat → FrameIn σ → FrameRes) :
    ∀ (pre rest : List (FrameIn σ)) (code : Nat),
      (∀ g ∈ pre, isContR (step code g) = true) →
      ∃ evs, runLoop step (pre ++ rest) code
          = (evs ++ (runLoop step rest code).1, (runLoop step rest code).2)
        ∧ ∀ e ∈ evs, ∃ g ∈ pre, e ∈ contEvs (step code g) := by
  intro pre
  induction pre with
  | nil => intro rest code _; exact ⟨[], by simp, by simp⟩
  | cons f fs ih =>
    intro rest code h
    have hf := h f (List.mem_cons_self f fs)
    obtain ⟨evs, heq, hmem⟩ := ih rest code (fun g hg => h g (List.mem_cons_of_mem f hg))
    cases hr : step code f with
    | cont evs0 =>
      refine ⟨evs0 ++ evs, ?_, ?_⟩
      · rw [show (f :: fs) ++ rest = f :: (fs ++ rest) from rfl, runLoop, hr, heq]
        simp [List.append_assoc]
      · intro e he
        rcases List.mem_append.mp he with h1 | h2
        · exact ⟨f, List.mem_cons_self f fs, by rw [hr]; exact h1⟩
        · obtain ⟨g, hg, hge⟩ := hmem e h2
          exact ⟨g, List.mem_cons_of_mem f hg, hge⟩
    | exit_ evs0 c =>
      rw [hr] at hf
      exact absurd hf (by simp [isContR])

lemma valFail_cont_events (code : Nat) (errs : List PydErr) (vs : SendRes)
    (h : isContR (App3.valFail code errs vs) = true) :
    ∀ e ∈ contEvs (App3.valFail code errs vs),
      isCodeErr "STREAM_TIMEOUT" e = false ∧ isCodeErr "LLM_TIMEOUT" e = false := by
  unfold App3.valFail at h ⊢
  by_cases hb : is_message_too_big_error errs = true
  · rw [if_pos hb] at h ⊢
    cases vs <;> simp [isContR] at h
  · rw [if_neg hb] at h ⊢
    cases vs with
    | ok =>
      intro e he
      rw [List.mem_singleton.mp he]
      exact ⟨rfl, rfl⟩
    | disc => simp [isContR] at h
    | err => simp [isContR] at h

lemma streamBody_completedOk_shape (rid : Nat) (sc : StreamScenario) (evs : List Ev)
    (h : streamBody rid sc = (evs, .completedOk)) :
    evs = Ev.start rid
      :: ((runSteps rid "" sc.steps).1 ++ [Ev.endEv rid (runSteps rid "" sc.steps).2.1]) := by
  obtain ⟨ss, steps, term, es, ts, errs⟩ := sc
  cases ss with
  | disc => simp [streamBody, Prod.ext_iff] at h
  | err => simp [streamBody, Prod.ext_iff] at h
  | ok =>
    rcases hi : (runSteps rid "" steps).2.2 with _ | i
    · cases term with
      | done =>
        cases es with
        | ok =>
          simp only [streamBody, hi, Prod.mk.injEq] at h
          exact h.1.symm
        | disc => simp [streamBody, hi, Prod.ext_iff] at h
        | err => simp [streamBody, hi, Prod.ext_iff] at h
      | raised => simp [streamBody, hi, Prod.ext_iff] at h
      | timeout =>
        cases ts <;> simp [streamBody, hi, Prod.ext_iff] at h
    · cases i <;> simp [streamBody, hi, Prod.ext_iff] at h

lemma app3_nonstream_cont_events (code : Nat) (g : FrameIn NonStreamScenario)
    (h : isContR (App3.stepNonStream code g) = true) :
    ∀ e ∈ contEvs (App3.stepNonStream code g), isCodeErr "LLM_TIMEOUT" e = false := by
  cases g with
  | disconnect => simp [App3.stepNonStream, isContR] at h
  | recvError s => simp [App3.stepNonStream, isContR] at h
  | frame j vs rid sc =>
    rcases hv : chatRequestValidate j with errs | r
    · have hstep : App3.stepNonStream code (.frame j vs rid sc) = App3.valFail code errs vs := by
        simp [App3.stepNonStream, hv]
      rw [hstep] at h ⊢
      intro e he
      exact (valFail_cont_events code errs vs h e he).2
    · obtain ⟨iv, rs, es⟩ := sc
      cases iv with
      | result v =>
        cases rs with
        | ok =>
          intro e he
          simp only [App3.stepNonStream, hv, nonStreamBody, App3.mapOutcome, contEvs] at he
          rw [List.mem_singleton.mp he]
          rfl
        | disc => simp [App3.stepNonStream, hv, nonStreamBody, App3.mapOutcome, isContR] at h
        | err => simp [App3.stepNonStream, hv, nonStreamBody, App3.mapOutcome, isContR] at h
      | timeout =>
        cases es <;> simp [App3.stepNonStream, hv, nonStreamBody, App3.mapOutcome, isContR] at h
      | failure =>
        cases es <;> simp [App3.stepNonStream, hv, nonStreamBody, App3.mapOutcome, isContR] at h

lemma app3_stream_cont_events (code : Nat) (g : FrameIn StreamScenario)
    (h : isContR (App3.stepStream code g) = true) :
    ∀ e ∈ contEvs (App3.stepStream code g), isCodeErr "STREAM_TIMEOUT" e = false := by
  cases g with
  | disconnect => simp [App3.stepStream, isContR] at h
  | recvError s => simp [App3.stepStream, isContR] at h
  | frame j vs rid sc =>
    rcases hv : chatRequestValidate j with errs | r
    · have hstep : App3.stepStream code (.frame j vs rid sc) = App3.valFail code errs vs := by
        simp [App3.stepStream, hv]
      rw [hstep] at h ⊢
      intro e he
      exact (valFail_cont_events code errs vs h e he).1
    · rcases hb : streamBody rid sc with ⟨evs, oc⟩
      have hstep : App3.stepStream code (.frame j vs rid sc) = App3.mapOutcome code evs oc := by
        simp [App3.stepStream, hv, hb]
      rw [hstep] at h ⊢
      cases oc with
      | completedOk =>
        have hshape := streamBody_completedOk_shape rid sc evs hb
        subst hshape
        intro e he
        simp only [App3.mapOutcome, contEvs] at he
        rcases List.mem_cons.mp he with h1 | h2
        · rw [h1]; rfl
        · rcases List.mem_append.mp h2 with h3 | h4
          · have hc := runSteps_chunks rid sc.steps "" e h3
            cases e with
            | chunk r2 v => rfl
            | start r2 => rfl
            | endEv r2 f => rfl
            | response r2 v => rfl
            | error c2 r2 => simp [isChunkFor] at hc
          · rw [List.mem_singleton.mp h4]
            rfl
      | timedOut => simp [App3.mapOutcome, isContR] at h
      | errored => simp [App3.mapOutcome, isContR] at h
      | disconnected => simp [App3.mapOutcome, isContR] at h
      | fatal => simp [App3.mapOutcome, isContR] at h

/-- C6 (corrected, amended): in app3, a model-invocation timeout (60s,
non-streaming) or overall stream timeout (120s, streaming) whose error-report
send succeeds leads to exactly one `LLM_TIMEOUT` / `STREAM_TIMEOUT` error
event — the last event of the connection — after which the connection is
closed with try-again-later (1013).  In app2's non-streaming handler the
`LLM_TIMEOUT` event is emitted but the loop continues: the connection stays
open (and is eventually closed with normal closure 1000, not 1013). -/
theorem C6_timeout_close_policy :
    (∀ (pre post : List (FrameIn NonStreamScenario)) (j : JsonVal) (vs : SendRes)
        (rid : Nat) (sc : NonStreamScenario) (r : ChatRequest) (b : Bool),
      (∀ g ∈ pre, isContR (App3.stepNonStream 1000 g) = true) →
      chatRequestValidate j = .ok r →
      sc.invoke = .timeout → sc.errSend = .ok →
      ∃ evs : List Ev, App3.ws_chat_non_stream (pre ++ (FrameIn.frame j vs rid sc) :: post) b
          = (evs.map Act.send) ++ [Act.send (Ev.error "LLM_TIMEOUT" (some rid)), Act.close 1013]
        ∧ ∀ e ∈ evs, isCodeErr "LLM_TIMEOUT" e = false)
    ∧ (∀ (pre post : List (FrameIn StreamScenario)) (j : JsonVal) (vs : SendRes)
        (rid : Nat) (sc : StreamScenario) (r : ChatRequest) (b : Bool),
      (∀ g ∈ pre, isContR (App3.stepStream 1000 g) = true) →
      chatRequestValidate j = .ok r →
      sc.startSend = .ok → (∀ st ∈ sc.steps, st.sendRes = .ok) →
      sc.term = .timeout → sc.timeoutSend = .ok →
      ∃ evs : List Ev, App3.ws_chat_stream (pre ++ (FrameIn.frame j vs rid sc) :: post) b
          = (evs.map Act.send) ++ [Act.send (Ev.error "STREAM_TIMEOUT" (some rid)), Act.close 1013]
        ∧ ∀ e ∈ evs, isCodeErr "STREAM_TIMEOUT" e = false)
    ∧ (∀ (j : JsonVal) (vs : SendRes) (rid : Nat) (sc : NonStreamScenario)
        (r : ChatRequest) (code : Nat),
      chatRequestValidate j = .ok r →
      sc.invoke = .timeout → sc.errSend = .ok →
      App2.stepNonStream code (.frame j vs rid sc) = .cont [Ev.error "LLM_TIMEOUT" (some rid)]) := by
  refine ⟨?_, ?_, ?_⟩
  · intro pre post j vs rid sc r b hpre hj hti hte
    have hstep : App3.stepNonStream 1000 (.frame j vs rid sc)
        = .exit_ [Ev.error "LLM_TIMEOUT" (some rid)] 1013 := by
      simp [App3.stepNonStream, hj, nonStreamBody, hti, hte, App3.mapOutcome]
    obtain ⟨evs, heq, hmem⟩ :=
      runLoop_cont_append App3.stepNonStream pre ((FrameIn.frame j vs rid sc) :: post) 1000 hpre
    have hrl : runLoop App3.stepNonStream ((FrameIn.frame j vs rid sc) :: post) 1000
        = ([Ev.error "LLM_TIMEOUT" (some rid)], .exited 1013) := by
      rw [runLoop, hstep]
    refine ⟨evs, ?_, ?_⟩
    · show assembleRun (runLoop App3.stepNonStream
          (pre ++ (FrameIn.frame j vs rid sc) :: post) 1000) b = _
      rw [heq, hrl]
      simp [assembleRun, safe_close]
    · intro e he
      obtain ⟨g, hg, hge⟩ := hmem e he
      exact app3_nonstream_cont_events 1000 g (hpre g hg) e hge
  · intro pre post j vs rid sc r b hpre hj hss hsteps hterm hts
    have hnone := runSteps_ok rid sc.steps "" hsteps
    have hsb : streamBody rid sc
        = (Ev.start rid :: ((runSteps rid "" sc.steps).1
            ++ [Ev.error "STREAM_TIMEOUT" (some rid)]), .timedOut) := by
      simp [streamBody, hss, hterm, hts, hnone]
    have hstep : App3.stepStream 1000 (.frame j vs rid sc)
        = .exit_ (Ev.start rid :: ((runSteps rid "" sc.steps).1
            ++ [Ev.error "STREAM_TIMEOUT" (some rid)])) 1013 := by
      simp [App3.stepStream, hj, hsb, App3.mapOutcome]
    obtain ⟨evs, heq, hmem⟩ :=
      runLoop_cont_append App3.stepStream pre ((FrameIn.frame j vs rid sc) :: post) 1000 hpre
    have hrl : runLoop App3.stepStream ((FrameIn.frame j vs rid sc) :: post) 1000
        = (Ev.start rid :: ((runSteps rid "" sc.steps).1
            ++ [Ev.error "STREAM_TIMEOUT" (some rid)]), .exited 1013) := by
      rw [runLoop, hstep]
    refine ⟨evs ++ (Ev.start rid :: (runSteps rid "" sc.steps).1), ?_, ?_⟩
    · show assembleRun (runLoop App3.stepStream
          (pre ++ (FrameIn.frame j vs rid sc) :: post) 1000) b = _
      rw [heq, hrl]
      simp [assembleRun, safe_close, List.append_assoc]
    · intro e he
      rcases List.mem_append.mp he with h1 | h2
      · obtain ⟨g, hg, hge⟩ := hmem e h1
        exact app3_stream_cont_events 1000 g (hpre g hg) e hge
      · rcases List.mem_cons.mp h2 with h3 | h4
        · rw [h3]; rfl
        · have hc := runSteps_chunks rid sc.steps "" e h4
          cases e with
          | chunk r2 v => rfl
          | start r2 => rfl
          | endEv r2 f => rfl
          | response r2 v => rfl
          | error c2 r2 => simp [isChunkFor] at hc
  · intro j vs rid sc r code hj hti hte
    simp [App2.stepNonStream, hj, nonStreamBody, hti, hte, App2.mapOutcome]

/-- C6 counterexample: in app2's non-streaming handler, a model timeout emits
`LLM_TIMEOUT` but does not terminate the loop; the connection stays open, and
once the client disconnects the close attempt carries normal closure 1000,
not the claimed try-again-later 1013. -/
theorem C6_counterexample :
    App2.ws_chat_non_stream
        [FrameIn.frame (.obj [("message", .str "Hi")]) .ok 0 ⟨.timeout, .ok, .ok⟩,
         FrameIn.disconnect] false
      = [Act.send (Ev.error "LLM_TIMEOUT" (some 0)), Act.close 1000] := by decide

/-- Witness for C6's amended theorem at concrete runs: a timed-out valid
request on each app3 endpoint, and the app2 step that keeps the loop going. -/
theorem C6_timeout_close_policy_witness :
    (∃ evs : List Ev, App3.ws_chat_non_stream
        [FrameIn.frame (.obj [("message", .str "Hi")]) .ok 0 ⟨.timeout, .ok, .ok⟩] false
        = (evs.map Act.send) ++ [Act.send (Ev.error "LLM_TIMEOUT" (some 0)), Act.close 1013]
      ∧ ∀ e ∈ evs, isCodeErr "LLM_TIMEOUT" e = false)
    ∧ (∃ evs : List Ev, App3.ws_chat_stream
        [FrameIn.frame (.obj [("message", .str "Hi")]) .ok 0 ⟨.ok, [], .timeout, .ok, .ok, .ok⟩] false
        = (evs.map Act.send) ++ [Act.send (Ev.error "STREAM_TIMEOUT" (some 0)), Act.close 1013]
      ∧ ∀ e ∈ evs, isCodeErr "STREAM_TIMEOUT" e = false)
    ∧ App2.stepNonStream 1000
        (.frame (.obj [("message", .str "Hi")]) .ok 0 ⟨.timeout, .ok, .ok⟩)
        = .cont [Ev.error "LLM_TIMEOUT" (some 0)] :=
  ⟨C6_timeout_close_policy.1 [] [] (.obj [("message", .str "Hi")]) .ok 0
      ⟨.timeout, .ok, .ok⟩ ⟨"Hi"⟩ false (by simp) rfl rfl rfl,
   C6_timeout_close_policy.2.1 [] [] (.obj [("message", .str "Hi")]) .ok 0
      ⟨.ok, [], .timeout, .ok, .ok, .ok⟩ ⟨"Hi"⟩ false (by simp) rfl rfl (by simp) rfl rfl,
   C6_timeout_close_policy.2.2 (.obj [("message", .str "Hi")]) .ok 0
      ⟨.timeout, .ok, .ok⟩ ⟨"Hi"⟩ 1000 rfl rfl rfl⟩

/-- C7: for both app3 endpoints, however the receive loop exits, the run makes
exactly one close attempt, that attempt is the final transport action, and the
recorded behaviour does not depend on whether the close attempt itself fails
(safe_close swallows the failure); while the loop has not exited no close
attempt has been made — request handling only contributes send events, the
close being executed solely at loop exit. -/
theorem C7_single_close (frames : List (FrameIn StreamScenario))
    (nframes : List (FrameIn NonStreamScenario)) (b b' : Bool) :
    (App3.ws_chat_stream frames b = App3.ws_chat_stream frames b')
    ∧ closeCount (App3.ws_chat_stream frames b)
        = (if loopExited (runLoop App3.stepStream frames 1000).2 = true then 1 else 0)
    ∧ (loopExited (runLoop App3.stepStream frames 1000).2 = true →
        ∃ c, (App3.ws_chat_stream frames b).getLast? = some (Act.close c))
    ∧ (App3.ws_chat_non_stream nframes b = App3.ws_chat_non_stream nframes b')
    ∧ closeCount (App3.ws_chat_non_stream nframes b)
        = (if loopExited (runLoop App3.stepNonStream nframes 1000).2 = true then 1 else 0)
    ∧ (loopExited (runLoop App3.stepNonStream nframes 1000).2 = true →
        ∃ c, (App3.ws_chat_non_stream nframes b).getLast? = some (Act.close c)) := by
  obtain ⟨hs1, hs2, hs3⟩ := assembleRun_props (runLoop App3.stepStream frames 1000) b b'
  obtain ⟨hn1, hn2, hn3⟩ := assembleRun_props (runLoop App3.stepNonStream nframes 1000) b b'
  exact ⟨hs1, hs2, hs3, hn1, hn2, hn3⟩

/-- Witness for C7 at a concrete exiting run (client disconnect as first
frame, close attempt itself failing). -/
theorem C7_single_close_witness :
    closeCount (App3.ws_chat_stream [FrameIn.disconnect] true) = 1
    ∧ (∃ c, (App3.ws_chat_stream [FrameIn.disconnect] true).getLast? = some (Act.close c))
    ∧ closeCount (App3.ws_chat_non_stream [FrameIn.disconnect] true) = 1
    ∧ (∃ c, (App3.ws_chat_non_stream [FrameIn.disconnect] true).getLast? = some (Act.close c)) := by
  have h := C7_single_close [FrameIn.disconnect] [FrameIn.disconnect] true true
  refine ⟨?_, h.2.2.1 (by decide), ?_, h.2.2.2.2.2 (by decide)⟩
  · rw [h.2.1]; decide
  · rw [h.2.2.2.2.1]; decide

/-- C8 (corrected, amended): only the streaming handler's best-effort
`STREAM_ERROR` report is protected — a failure of that send is suppressed: the
request outcome (and hence the close decision) and every other emitted event
are the same whatever the report send's outcome; the other error-report sends
are unprotected, and their failure changes the request's outcome (see the
counterexample). -/
theorem C8_stream_error_report_suppressed (rid : Nat) (sc : StreamScenario) (e : SendRes) :
    (streamBody rid (setErrSend sc e)).2 = (streamBody rid sc).2
    ∧ ((streamBody rid (setErrSend sc e)).1.filter (fun x => !isCodeErr "STREAM_ERROR" x))
        = ((streamBody rid sc).1.filter (fun x => !isCodeErr "STREAM_ERROR" x)) := by
  obtain ⟨ss, steps, term, es, ts, errs⟩ := sc
  cases ss with
  | disc => exact ⟨rfl, rfl⟩
  | err => exact ⟨rfl, rfl⟩
  | ok =>
    rcases hi : (runSteps rid "" steps).2.2 with _ | i
    · cases term with
      | done =>
        cases es <;>
          exact ⟨by simp [streamBody, setErrSend, hi],
                 by simp [streamBody, setErrSend, hi, List.filter_append, List.filter_cons, filter_errEvs]⟩
      | raised =>
        exact ⟨by simp [streamBody, setErrSend, hi],
               by simp [streamBody, setErrSend, hi, List.filter_append, List.filter_cons, filter_errEvs]⟩
      | timeout =>
        cases ts <;>
          exact ⟨by simp [streamBody, setErrSend, hi],
                 by simp [streamBody, setErrSend, hi, List.filter_append, List.filter_cons, filter_errEvs]⟩
    · cases i <;>
        exact ⟨by simp [streamBody, setErrSend, hi],
               by simp [streamBody, setErrSend, hi, List.filter_append, List.filter_cons, filter_errEvs]⟩

/-- C8 counterexample: the `LLM_TIMEOUT` report send of app3's non-streaming
handler is not protected — when that send itself fails the exception escapes
to the supervisor and the connection closes 1011 with no error event, while
with a succeeding send the event is emitted and the connection closes 1013:
the secondary failure changes the outcome of the request being reported. -/
theorem C8_counterexample :
    App3.ws_chat_non_stream
        [FrameIn.frame (.obj [("message", .str "Hi")]) .ok 0 ⟨.timeout, .ok, .err⟩] false
      = [Act.close 1011]
    ∧ App3.ws_chat_non_stream
        [FrameIn.frame (.obj [("message", .str "Hi")]) .ok 0 ⟨.timeout, .ok, .ok⟩] false
      = [Act.send (Ev.error "LLM_TIMEOUT" (some 0)), Act.close 1013] := by decide
